import Mathlib

/-!
Verification of the adaptive interview session engine
(`backend/app/services/ai_service.py` and
`backend/app/routers/candidate_interview.py`).

The Python source is embedded shallowly: scores are rationals, Python
`round(x, 1)` is modelled by half-even rounding on rationals, dictionaries
with optional keys become structures with `Option` fields, Python string
processing (`strip`, `lower`, `split`, substring `in`) is modelled by
structurally recursive functions on the character list of a `String`,
and the database updates performed by the router become pure functions
on a session record.
-/

/-! ### Python numeric primitives -/

/-- Python `round(x)`: round half to even, as an integer. -/
def pyRoundHalfEven (x : ℚ) : ℤ :=
  if x - (⌊x⌋ : ℚ) < 1 / 2 then ⌊x⌋
  else if 1 / 2 < x - (⌊x⌋ : ℚ) then ⌊x⌋ + 1
  else if ⌊x⌋ % 2 = 0 then ⌊x⌋ else ⌊x⌋ + 1

/-- Python `round(x, 1)`: round to one decimal digit, half to even. -/
def pyRound1 (x : ℚ) : ℚ := (pyRoundHalfEven (x * 10) : ℚ) / 10

/-! ### Python string primitives (on character lists) -/

/-- Test whether `l1` is a prefix of `l2` (character lists). -/
def isPrefixChars : List Char → List Char → Bool
  | [], _ => true
  | _ :: _, [] => false
  | a :: as, b :: bs => a == b && isPrefixChars as bs

/-- Python `needle in hay` for strings, on character lists. -/
def isInfixChars (needle hay : List Char) : Bool :=
  match hay with
  | [] => needle.isEmpty
  | _ :: rest => isPrefixChars needle hay || isInfixChars needle rest

/-- Python `s1 in s2` (substring containment). -/
def pyContains (hay needle : String) : Bool :=
  isInfixChars needle.data hay.data

/-- Python `s.strip()` on a character list: drop leading and trailing
whitespace. -/
def pyStripChars (cs : List Char) : List Char :=
  ((cs.dropWhile Char.isWhitespace).reverse.dropWhile Char.isWhitespace).reverse

/-- Python `s.strip()`. -/
def pyStrip (s : String) : String := ⟨pyStripChars s.data⟩

/-- Python `s.lower()` (sufficient for the ASCII text used here). -/
def pyLower (s : String) : String := ⟨s.data.map Char.toLower⟩

/-- Split a character list at every character satisfying `p`, keeping
empty pieces (like Python `s.split(".")` keeps empties). -/
def splitChars (p : Char → Bool) : List Char → List (List Char)
  | [] => [[]]
  | c :: rest =>
    match splitChars p rest with
    | [] => [[]]
    | piece :: pieces =>
      if p c then [] :: piece :: pieces else (c :: piece) :: pieces

/-- Python `s.split()` (no argument): split on whitespace runs, no empty
words. -/
def pyWords (s : String) : List (List Char) :=
  (splitChars (fun c => c.isWhitespace) s.data).filter (fun w => !w.isEmpty)

/-- The sentence list `[s.strip() for s in text.split(".") if s.strip()]`
from `evaluate_answer_instant`. -/
def pySentences (s : String) : List (List Char) :=
  ((splitChars (fun c => c == '.') s.data).map pyStripChars).filter
    (fun t => !t.isEmpty)

/-! ### Data model -/

/-- A question document as stored in `candidate_ai_sessions.questions`. -/
structure Question where
  question_id : String
  question : String
  ideal_answer : String
  keywords : List String
  difficulty : String
  round : String
  is_coding : Bool
deriving DecidableEq

/-- The evaluation dictionary produced by `evaluate_answer_instant` and
its siblings.  Score fields hold the values as returned, i.e. already
rounded to one decimal where the source rounds. -/
structure Evaluation where
  content_score : ℚ
  keyword_score : ℚ
  depth_score : ℚ
  communication_score : ℚ
  confidence_score : ℚ
  overall_score : ℚ
  similarity_score : ℚ
  keyword_coverage : ℚ
  keywords_matched : List String
  keywords_missed : List String
  feedback : String
  answer_strength : String
  phase : String
deriving DecidableEq

/-- A response document as stored in `candidate_ai_sessions.responses`.
`evaluation` is optional, mirroring `r.get("evaluation", {})`. -/
structure Response where
  question_id : String
  answer_text : String
  evaluation : Option Evaluation
deriving DecidableEq

/-- The lookup `r.get("evaluation", empty).get("overall_score", 0)`:
a missing evaluation contributes an overall score of 0. -/
def response_overall (r : Response) : ℚ :=
  match r.evaluation with
  | some ev => ev.overall_score
  | none => 0

/-- The mutable part of a `candidate_ai_sessions` document. -/
structure CandidateSession where
  status : String
  current_round : String
  duration_minutes : ℚ
  processing_time_total : ℚ
  questions : List Question
  responses : List Response
  technical_score : Option ℚ
  hr_score : Option ℚ
  termination_reason : Option String
  difficulty : String
deriving DecidableEq

/-! ### Scoring helpers (`ai_service.py`) -/

/-- Source `AIService.calculate_round_score`: average overall score of a set of
responses, rounded to one decimal; `0.0` for the empty list. -/
def calculate_round_score (responses : List Response) : ℚ :=
  if responses.isEmpty then 0
  else pyRound1 ((responses.map response_overall).sum / (responses.length : ℚ))

/-- Source `AIService.should_proceed_to_hr`. -/
def should_proceed_to_hr (technical_score : ℚ) (cutoff : ℚ) : Bool :=
  decide (cutoff ≤ technical_score)

/-- The constant `TECH_CUTOFF` from the candidate interview router. -/
def TECH_CUTOFF : ℚ := 70

/-- Source `AIService.determine_next_difficulty` (the second Python argument,
the current difficulty, is unused by the source). -/
def determine_next_difficulty (last_score : ℚ) (_current_difficulty : String) : String :=
  if 80 ≤ last_score then "hard"
  else if 50 ≤ last_score then "medium"
  else "easy"

/-! ### The active-time clock (`AIService.check_time_status`) -/

/-- The quantity `active_elapsed = max(0, wall_elapsed -
processing_time_seconds / 60)` computed inside `check_time_status`. -/
def active_elapsed_of (wall_elapsed : ℚ) (processing_time_seconds : ℚ) : ℚ :=
  max 0 (wall_elapsed - processing_time_seconds / 60)

/-- The dictionary returned by `AIService.check_time_status`. -/
structure TimeStatus where
  elapsed_minutes : ℚ
  remaining_minutes : ℚ
  remaining_seconds : ℤ
  is_expired : Bool
  is_wrap_up : Bool
  progress_pct : ℚ
  wall_elapsed_minutes : ℚ
deriving DecidableEq

/-- Source `AIService.check_time_status`.  Times are rationals in seconds since
an epoch; `wall_elapsed` is `(now - start_time).total_seconds() / 60`.
The flags are computed on the exact `remaining`, the reported minute
fields are rounded to one decimal, and `remaining_seconds` is
`int(remaining * 60)` (a floor, since `remaining` is non-negative). -/
def check_time_status (start_time now : ℚ) (duration_minutes : ℚ)
    (processing_time_seconds : ℚ) : TimeStatus :=
  let wall_elapsed := (now - start_time) / 60
  let active_elapsed := active_elapsed_of wall_elapsed processing_time_seconds
  let remaining := max 0 (duration_minutes - active_elapsed)
  { elapsed_minutes := pyRound1 active_elapsed
    remaining_minutes := pyRound1 remaining
    remaining_seconds := ⌊remaining * 60⌋
    is_expired := decide (remaining ≤ 0)
    is_wrap_up := decide (0 < remaining ∧ remaining < 2)
    progress_pct := min 100 (pyRound1 (active_elapsed / max duration_minutes 1 * 100))
    wall_elapsed_minutes := pyRound1 wall_elapsed }

/-! ### Question generation (`AIService.generate_question`) -/

/-- A parsed generator (LLM) reply that passed the
`parsed and "question" in parsed` check; optional keys stay optional. -/
structure ParsedGen where
  question : String
  ideal_answer : Option String
  evaluation_keywords : Option (List String)
  keywords : Option (List String)
  round : Option String
  difficulty_level : Option String
  is_coding : Option Bool
deriving DecidableEq

/-- The question dictionary `generate_question` returns. -/
structure GenQuestion where
  round : String
  question : String
  ideal_answer : Option String
  keywords : List String
  difficulty_level : String
  is_coding : Bool
deriving DecidableEq

/-- The static HR fallback pool of `generate_question`. -/
def hr_fallback_questions : List String :=
  ["Tell me about a time when you had to handle a conflict with a team member.",
   "What motivates you to excel in your career?",
   "Describe a situation where you demonstrated leadership.",
   "Where do you see yourself in five years?",
   "How do you handle pressure and tight deadlines?",
   "Tell me about a challenging project and how you managed it."]

/-- The static technical fallback pool of `generate_question`
(f-strings over the job role). -/
def technical_fallback_questions (job_role : String) : List String :=
  ["Explain the core concepts and best practices of " ++ job_role ++ ".",
   "Describe a challenging technical problem you solved as a " ++ job_role ++ ".",
   "What tools and technologies do you use most as a " ++ job_role ++ "?",
   "Walk me through how you would design a system for a common " ++ job_role ++ " task.",
   "What is your approach to debugging and troubleshooting?",
   "Explain a complex concept from your domain in simple terms."]

/-- The per-round fallback pool (`if round_type == "HR": ... else: ...`). -/
def fallback_pool (round_type job_role : String) : List String :=
  if round_type = "HR" then hr_fallback_questions
  else technical_fallback_questions job_role

/-- The `chosen = fallback_questions[0]; for fq in ...: if fq not in
previous_questions: chosen = fq; break` loop: the first pool entry not
in the exclusion list, if any. -/
def first_not_excluded : List String → List String → Option String
  | [], _ => none
  | fq :: rest, prev => if fq ∈ prev then first_not_excluded rest prev else some fq

/-- The value of `chosen` after the fallback selection loop. -/
def choose_fallback (pool prev : List String) : String :=
  (first_not_excluded pool prev).getD (pool.headD "")

/-- The fixed ideal answer of the fallback question dictionary. -/
def fallback_ideal_answer : String :=
  "A strong answer should cover relevant experience, specific examples, and demonstrate domain knowledge."

/-- The fixed keywords of the fallback question dictionary. -/
def fallback_keywords : List String :=
  ["experience", "skills", "knowledge", "examples", "approach"]

/-- Source `AIService.generate_question`, given the parsed generator reply
(`none` when the LLM reply was empty, malformed, or missing the
`question` key).  The `setdefault` calls become `Option.getD`. -/
def generate_question (parsed : Option ParsedGen) (round_type job_role difficulty : String)
    (previous_questions : List String) : GenQuestion :=
  match parsed with
  | none =>
      { round := round_type
        question := choose_fallback (fallback_pool round_type job_role) previous_questions
        ideal_answer := some fallback_ideal_answer
        keywords := fallback_keywords
        difficulty_level := difficulty
        is_coding := false }
  | some p =>
      { round := p.round.getD round_type
        question := p.question
        ideal_answer := p.ideal_answer
        keywords := p.evaluation_keywords.getD (p.keywords.getD ["experience", "skills"])
        difficulty_level := p.difficulty_level.getD difficulty
        is_coding := p.is_coding.getD false }

/-! ### Instant answer evaluation (`AIService.evaluate_answer_instant`) -/

/-- The discourse markers rewarded by the communication heuristic. -/
def structure_markers : List String :=
  ["firstly", "secondly", "however", "moreover", "for example",
   "in addition", "furthermore", "therefore", "in conclusion",
   "on the other hand", "specifically", "for instance"]

/-- An apostrophe character, used in one feedback string. -/
def apos : String := String.singleton (Char.ofNat 39)

/-- The base communication score from the word count. -/
def comm_base (word_count : ℕ) : ℚ :=
  if word_count < 10 then 15
  else if word_count < 20 then 35
  else if word_count < 50 then 55
  else if word_count < 100 then 70
  else if word_count < 200 then 82
  else 88

/-- The `answer_strength` label from the overall score (same thresholds in the
instant and deep paths). -/
def answer_strength_of (overall : ℚ) : String :=
  if 80 ≤ overall then "strong"
  else if 50 ≤ overall then "moderate"
  else "weak"

/-- The dictionary returned for a whitespace-only answer. -/
def empty_answer_evaluation (keywords : List String) : Evaluation :=
  { content_score := 0, keyword_score := 0, depth_score := 0
    communication_score := 0, confidence_score := 0, overall_score := 0
    similarity_score := 0, keyword_coverage := 0
    keywords_matched := [], keywords_missed := keywords
    feedback := "No answer provided."
    answer_strength := "weak"
    phase := "instant" }

/-- Source `AIService.evaluate_answer_instant`.  The semantic similarity of the
sentence-transformer embedding (already scaled to percent, i.e. the
source's `float(cosine_similarity(...)) * 100`) is passed in as the
function `similarity`, since it is an external local model. -/
def evaluate_answer_instant (similarity : String → String → ℚ)
    (_question ideal_answer candidate_answer : String)
    (keywords : List String) : Evaluation :=
  if (pyStrip candidate_answer).data.isEmpty then
    empty_answer_evaluation keywords
  else
    let sim_score := similarity ideal_answer candidate_answer
    let answer_lower := pyLower candidate_answer
    let matched := keywords.filter (fun k => pyContains answer_lower (pyLower k))
    let missed := keywords.filter (fun k => !pyContains answer_lower (pyLower k))
    let keyword_pct : ℚ := ((matched.length : ℚ) / (max keywords.length 1 : ℚ)) * 100
    let word_count := (pyWords candidate_answer).length
    let sentences := pySentences candidate_answer
    let c0 := comm_base word_count
    let c1 := if 3 ≤ sentences.length then min 100 (c0 + 8) else c0
    let c2 := if 5 ≤ sentences.length then min 100 (c1 + 5) else c1
    let marker_count := (structure_markers.filter
      (fun m => pyContains answer_lower m)).length
    let comm_score := min 100 (c2 + (marker_count : ℚ) * 3)
    let depth_score := min 100 (sim_score * (1 / 2) + keyword_pct * (3 / 10)
      + (min word_count 100 : ℚ) * (1 / 5))
    let content_score := sim_score * (3 / 5) + keyword_pct * (2 / 5)
    let confidence_score : ℚ := 50
    let overall := content_score * (2 / 5) + keyword_pct * (1 / 5)
      + depth_score * (3 / 20) + comm_score * (3 / 20) + confidence_score * (1 / 10)
    let fb1 : List String :=
      if (70 : ℚ) ≤ sim_score then ["Your answer aligns well with the expected response."]
      else if (40 : ℚ) ≤ sim_score then ["Your answer partially covers the expected content."]
      else ["Your answer doesn" ++ apos ++ "t closely match what was expected."]
    let fb2 :=
      if (70 : ℚ) ≤ keyword_pct then fb1 ++ ["Good use of relevant technical terminology."]
      else if !missed.isEmpty then
        fb1 ++ ["Consider mentioning: " ++ String.intercalate ", " (missed.take 3) ++ "."]
      else fb1
    let fb3 :=
      if word_count < 30 then
        fb2 ++ ["Try to elaborate more — provide specific examples and details."]
      else if sentences.length < 3 then
        fb2 ++ ["Structure your answer into multiple points for clarity."]
      else fb2
    let fb4 :=
      if (75 : ℚ) ≤ overall then fb3 ++ ["Strong response overall!"]
      else if overall < 40 then
        fb3 ++ ["Review the core concepts and practice with concrete examples."]
      else fb3
    { content_score := pyRound1 content_score
      keyword_score := pyRound1 keyword_pct
      depth_score := pyRound1 depth_score
      communication_score := pyRound1 comm_score
      confidence_score := pyRound1 confidence_score
      overall_score := pyRound1 overall
      similarity_score := pyRound1 sim_score
      keyword_coverage := pyRound1 keyword_pct
      keywords_matched := matched
      keywords_missed := missed
      feedback := String.intercalate " " fb4
      answer_strength := answer_strength_of overall
      phase := "instant" }

/-! ### The candidate interview router (`candidate_interview.py`) -/

/-- The question lookup of `submit_candidate_answer`:
`next((q for q in ai_session["questions"] if q["question_id"] ==
body.question_id), None)`; the submission is rejected (HTTP 404,
"Question not found") exactly when this is `none`. -/
def find_question (questions : List Question) (question_id : String) : Option Question :=
  questions.find? (fun q => q.question_id == question_id)

/-- Responses belonging to a given round: the list comprehension
`[r for r in all_responses if any(q.get("round") == round_name for q in
questions if q["question_id"] == r["question_id"])]`. -/
def round_responses (questions : List Question) (responses : List Response)
    (round_name : String) : List Response :=
  responses.filter (fun r =>
    questions.any (fun q => q.question_id == r.question_id && q.round == round_name))

/-- Outcome of the Technical-round gate inside `submit_candidate_answer`. -/
inductive GateOutcome where
  | noTransition
  | terminated (techScore : ℚ)
  | proceedHR (techScore : ℚ)
deriving DecidableEq

/-- The Technical → HR gate of `submit_candidate_answer` (the branch
after the time-expiry early return).  `elapsed` is
`time_status["elapsed_minutes"]` recomputed after this answer's
processing cost was added; `duration * (3/5)` is `tech_time_limit =
duration * 0.6`. -/
def round_gate (current_round : String) (questions : List Question)
    (all_responses : List Response) (duration elapsed : ℚ) : GateOutcome :=
  if current_round = "Technical" then
    if duration * (3 / 5) ≤ elapsed ∧
        3 ≤ (round_responses questions all_responses "Technical").length then
      if !should_proceed_to_hr
          (calculate_round_score (round_responses questions all_responses "Technical"))
          TECH_CUTOFF then
        GateOutcome.terminated
          (calculate_round_score (round_responses questions all_responses "Technical"))
      else
        GateOutcome.proceedHR
          (calculate_round_score (round_responses questions all_responses "Technical"))
    else GateOutcome.noTransition
  else GateOutcome.noTransition

/-- The database `$set` update performed for each gate outcome:
termination persists the technical score, completed status and the
stored termination reason string; proceeding persists the HR round and
the technical score; no transition leaves the session unchanged. -/
def gate_persist (s : CandidateSession) : GateOutcome → CandidateSession
  | GateOutcome.noTransition => s
  | GateOutcome.terminated t =>
      { s with technical_score := some t
               status := "completed"
               termination_reason := some "technical_score_below_cutoff" }
  | GateOutcome.proceedHR t =>
      { s with current_round := "HR"
               technical_score := some t }

/-- The `reason` field of the JSON response returned to the caller for a
gate outcome (`"technical_cutoff_not_met"` on termination). -/
def gate_surfaced_reason : GateOutcome → Option String
  | GateOutcome.terminated _ => some "technical_cutoff_not_met"
  | _ => none

/-- The helper `_complete_candidate_session`: mark completed and persist both round
scores (used by the time-expiry path of `submit_candidate_answer` and by
the explicit `/end` endpoint). -/
def complete_candidate_session (s : CandidateSession)
    (all_responses : List Response) : CandidateSession :=
  { s with
    status := "completed"
    technical_score :=
      some (calculate_round_score (round_responses s.questions all_responses "Technical"))
    hr_score :=
      some (calculate_round_score (round_responses s.questions all_responses "HR")) }

/-- Outcome of `start_candidate_interview` as far as session creation is
concerned. -/
inductive StartOutcome where
  | alreadyCompleted
  | resumed (q : Question) (question_number : ℕ)
  | created
deriving DecidableEq

/-- The resume logic at the top of `start_candidate_interview`:
a completed session is rejected; an in-progress session whose response
count indexes an existing question is resumed with that question (and
`question_number = current_q_index + 1`); in every other case control
falls through to the creation of a brand-new session document. -/
def start_candidate_interview (existing : Option CandidateSession) : StartOutcome :=
  match existing with
  | none => StartOutcome.created
  | some s =>
      if s.status = "completed" then StartOutcome.alreadyCompleted
      else if s.status = "in_progress" then
        match s.questions[s.responses.length]? with
        | some q => StartOutcome.resumed q (s.responses.length + 1)
        | none => StartOutcome.created
      else StartOutcome.created

/-! ### Sample documents used by concrete counterexamples and witnesses -/

/-- An evaluation with a prescribed overall score. -/
def sample_evaluation (overall : ℚ) : Evaluation :=
  { content_score := overall, keyword_score := overall, depth_score := overall
    communication_score := overall, confidence_score := 50, overall_score := overall
    similarity_score := overall, keyword_coverage := overall
    keywords_matched := [], keywords_missed := []
    feedback := "", answer_strength := "moderate", phase := "instant" }

/-- A response with a prescribed overall score. -/
def sample_response (qid : String) (overall : ℚ) : Response :=
  { question_id := qid, answer_text := "answer", evaluation := some (sample_evaluation overall) }

/-- A Technical question with a prescribed identifier. -/
def sample_question (qid : String) : Question :=
  { question_id := qid, question := "Explain the system design."
    ideal_answer := "A detailed design answer.", keywords := ["design"]
    difficulty := "medium", round := "Technical", is_coding := false }

/-- The session used by the C1 witness: three answered Technical
questions, each scored 65, duration 20 minutes, elapsed 12 minutes. -/
def c1_session : CandidateSession :=
  { status := "in_progress"
    current_round := "Technical"
    duration_minutes := 20
    processing_time_total := 0
    questions := [sample_question "q1", sample_question "q2", sample_question "q3"]
    responses := []
    technical_score := none
    hr_score := none
    termination_reason := none
    difficulty := "medium" }

/-- The three Technical responses (overall 65 each) of the C1 witness. -/
def c1_responses : List Response :=
  [sample_response "q1" 65, sample_response "q2" 65, sample_response "q3" 65]

/-- The three Technical responses of the C1 counterexample: overall
scores 69.9, 69.9 and 70.1 (all evaluation paths emit one-decimal
overalls), whose exact mean 2099/30 is strictly below 70 while the
rounded round score is exactly 70. -/
def c1_counter_responses : List Response :=
  [sample_response "q1" (699 / 10), sample_response "q2" (699 / 10),
   sample_response "q3" (701 / 10)]

/-- A fresh session document as inserted by `start_candidate_interview`
(three Technical questions already appended for the counterexample). -/
def c3_session : CandidateSession :=
  { status := "in_progress"
    current_round := "Technical"
    duration_minutes := 20
    processing_time_total := 0
    questions := []
    responses := []
    technical_score := none
    hr_score := none
    termination_reason := none
    difficulty := "medium" }

/-- The in-progress session used by the C5 witness: one answered
question, one queued question. -/
def c5_session : CandidateSession :=
  { status := "in_progress"
    current_round := "Technical"
    duration_minutes := 20
    processing_time_total := 0
    questions := [sample_question "q1", sample_question "q2"]
    responses := [sample_response "q1" 65]
    technical_score := none
    hr_score := none
    termination_reason := none
    difficulty := "medium" }

/-- A parsed generator reply used by the C7 witness. -/
def c7_parsed : ParsedGen :=
  { question := "Describe your leadership style in a recent project."
    ideal_answer := none, evaluation_keywords := none, keywords := none
    round := none, difficulty_level := none, is_coding := none }

/-! ### Evaluation lemmas for the Python rounding primitives -/

lemma pyRoundHalfEven_low (y : ℚ) (z : ℤ) (h1 : (z : ℚ) ≤ y) (h2 : y - z < 1 / 2) :
    pyRoundHalfEven y = z := by
  have hz : ⌊y⌋ = z := Int.floor_eq_iff.mpr ⟨h1, by linarith⟩
  simp only [pyRoundHalfEven, hz]
  rw [if_pos h2]

lemma pyRoundHalfEven_high (y : ℚ) (z : ℤ) (h1 : (z : ℚ) ≤ y) (h2 : 1 / 2 < y - z)
    (h3 : y < z + 1) : pyRoundHalfEven y = z + 1 := by
  have hz : ⌊y⌋ = z := Int.floor_eq_iff.mpr ⟨h1, h3⟩
  simp only [pyRoundHalfEven, hz]
  rw [if_neg (by linarith), if_pos h2]

lemma pyRound1_low (x : ℚ) (z : ℤ) (h1 : (z : ℚ) ≤ x * 10) (h2 : x * 10 - z < 1 / 2) :
    pyRound1 x = z / 10 := by
  rw [pyRound1, pyRoundHalfEven_low (x * 10) z h1 h2]

lemma pyRound1_high (x : ℚ) (z : ℤ) (h1 : (z : ℚ) ≤ x * 10) (h2 : 1 / 2 < x * 10 - z)
    (h3 : x * 10 < z + 1) : pyRound1 x = ((z : ℚ) + 1) / 10 := by
  rw [pyRound1, pyRoundHalfEven_high (x * 10) z h1 h2 h3]
  push_cast
  ring

/-! ### Claim C2 — the clock -/

/-- Claim C2 (amended): `check_time_status` reports the active elapsed
minutes `max(0, wall − overhead/60)` and the remaining minutes
`max(0, duration − active)` rounded to one decimal (half to even), an
expired flag holding iff `duration ≤ active` (equivalently iff the exact
remaining is `≤ 0`), a wrap-up flag holding iff
`active < duration ∧ duration − active < 2` (equivalently iff
`0 < remaining < 2` exactly), and a progress percentage
`min(100, round1(active / max(duration, 1) · 100))`; as a Lean function
it is pure and deterministic. -/
theorem C2_time_status (start_time now duration oh : ℚ) :
    (check_time_status start_time now duration oh).elapsed_minutes
      = pyRound1 (active_elapsed_of ((now - start_time) / 60) oh) ∧
    (check_time_status start_time now duration oh).remaining_minutes
      = pyRound1 (max 0 (duration - active_elapsed_of ((now - start_time) / 60) oh)) ∧
    ((check_time_status start_time now duration oh).is_expired = true ↔
      duration ≤ active_elapsed_of ((now - start_time) / 60) oh) ∧
    ((check_time_status start_time now duration oh).is_wrap_up = true ↔
      (active_elapsed_of ((now - start_time) / 60) oh < duration ∧
        duration - active_elapsed_of ((now - start_time) / 60) oh < 2)) ∧
    (check_time_status start_time now duration oh).progress_pct
      = min 100 (pyRound1
          (active_elapsed_of ((now - start_time) / 60) oh / max duration 1 * 100)) := by
  set a := active_elapsed_of ((now - start_time) / 60) oh with ha
  refine ⟨rfl, rfl, ?_, ?_, rfl⟩
  · show decide (max 0 (duration - a) ≤ 0) = true ↔ duration ≤ a
    rw [decide_eq_true_eq, max_le_iff]
    constructor
    · intro h
      linarith [h.2]
    · intro h
      exact ⟨le_refl 0, by linarith⟩
  · show decide (0 < max 0 (duration - a) ∧ max 0 (duration - a) < 2) = true ↔
      (a < duration ∧ duration - a < 2)
    rw [decide_eq_true_eq]
    constructor
    · rintro ⟨h1, h2⟩
      have hpos : 0 < duration - a := by
        rcases lt_max_iff.mp h1 with h | h
        · exact absurd h (lt_irrefl 0)
        · exact h
      have hm : max 0 (duration - a) = duration - a := max_eq_right (le_of_lt hpos)
      rw [hm] at h2
      exact ⟨by linarith, h2⟩
    · rintro ⟨h1, h2⟩
      have hpos : 0 < duration - a := by linarith
      rw [max_eq_right (le_of_lt hpos)]
      exact ⟨hpos, h2⟩

/-- Claim C2, counterexample to the literal statement: with a wall-clock
elapsed of 4.2 seconds (= 0.07 minutes), zero overhead and duration 30,
the exact active elapsed is 7/100 but the returned `elapsed_minutes` is
the rounded 1/10, and the returned `progress_pct` is not the exact
`active/duration·100` either. -/
theorem C2_counterexample :
    active_elapsed_of (((21 / 5 : ℚ) - 0) / 60) 0 = 7 / 100 ∧
    (check_time_status 0 (21 / 5) 30 0).elapsed_minutes ≠ 7 / 100 ∧
    (check_time_status 0 (21 / 5) 30 0).progress_pct ≠ (7 / 100) / 30 * 100 := by
  have hae : active_elapsed_of (((21 / 5 : ℚ) - 0) / 60) 0 = 7 / 100 := by
    rw [active_elapsed_of, show ((21 / 5 : ℚ) - 0) / 60 - 0 / 60 = 7 / 100 by norm_num]
    exact max_eq_right (by norm_num)
  have hel : (check_time_status 0 (21 / 5) 30 0).elapsed_minutes
      = pyRound1 (active_elapsed_of (((21 / 5 : ℚ) - 0) / 60) 0) := rfl
  have hpr : (check_time_status 0 (21 / 5) 30 0).progress_pct
      = min 100 (pyRound1 (active_elapsed_of (((21 / 5 : ℚ) - 0) / 60) 0 / max 30 1 * 100)) :=
    rfl
  refine ⟨hae, ?_, ?_⟩
  · rw [hel, hae, pyRound1_high (7 / 100) 0 (by norm_num) (by norm_num) (by norm_num)]
    norm_num
  · rw [hpr, hae, show max (30 : ℚ) 1 = 30 from max_eq_left (by norm_num),
      show (7 / 100 : ℚ) / 30 * 100 = 7 / 30 by norm_num,
      pyRound1_low (7 / 30) 2 (by norm_num) (by norm_num),
      show min (100 : ℚ) ((2 : ℤ) / 10) = 1 / 5 by norm_num]
    norm_num

/-! ### Claim C6 — overhead monotonicity of the clock -/

/-- Claim C6 (amended): for a fixed wall-clock elapsed, the active
elapsed computed by the clock is antitone in the processing overhead,
and strictly decreasing provided the smaller overhead still leaves a
positive active elapsed (`o1/60 < wall`); at the `max(0,·)` clamp two
different overheads can both produce an active elapsed of `0`. -/
theorem C6_overhead_antitone (wall o1 o2 : ℚ) (h : o1 < o2) :
    active_elapsed_of wall o2 ≤ active_elapsed_of wall o1 ∧
    (o1 / 60 < wall → active_elapsed_of wall o2 < active_elapsed_of wall o1) := by
  constructor
  · exact max_le_max (le_refl 0) (by linarith)
  · intro hw
    have h1 : active_elapsed_of wall o1 = wall - o1 / 60 :=
      max_eq_right (by linarith)
    rw [h1, active_elapsed_of]
    exact max_lt (by linarith) (by linarith)

/-- Claim C6, counterexample to the literal statement: with wall elapsed
0 and overheads 60 < 120, both active elapsed values are clamped to 0,
so the larger overhead does not yield a strictly smaller value. -/
theorem C6_counterexample :
    (60 : ℚ) < 120 ∧
    ¬ active_elapsed_of 0 120 < active_elapsed_of 0 60 := by
  constructor
  · norm_num
  · have h1 : active_elapsed_of 0 120 = 0 := max_eq_left (by norm_num)
    have h2 : active_elapsed_of 0 60 = 0 := max_eq_left (by norm_num)
    rw [h1, h2]
    exact lt_irrefl 0

/-- Witness for C6: wall elapsed 2 minutes, overheads 30 s < 60 s; the
strict hypothesis `30/60 < 2` holds and the active elapsed strictly
decreases. -/
theorem C6_witness :
    active_elapsed_of 2 60 < active_elapsed_of 2 30 ∧
    active_elapsed_of 2 60 ≤ active_elapsed_of 2 30 :=
  ⟨(C6_overhead_antitone 2 30 60 (by norm_num)).2 (by norm_num),
   (C6_overhead_antitone 2 30 60 (by norm_num)).1⟩

/-! ### Claim C3 — terminal states and round-score persistence -/

/-- Claim C3 (amended): the shared completion helper (used by the
time-expiry terminal and the explicit end request) persists both round
scores and marks the session completed; the Technical-cutoff terminal
persists the technical score and marks the session completed but leaves
the HR score untouched (it stays `null`). -/
theorem C3_terminal_scores (s : CandidateSession) (all_responses : List Response) (t : ℚ) :
    (complete_candidate_session s all_responses).status = "completed" ∧
    (complete_candidate_session s all_responses).technical_score =
      some (calculate_round_score (round_responses s.questions all_responses "Technical")) ∧
    (complete_candidate_session s all_responses).hr_score =
      some (calculate_round_score (round_responses s.questions all_responses "HR")) ∧
    (gate_persist s (GateOutcome.terminated t)).status = "completed" ∧
    (gate_persist s (GateOutcome.terminated t)).technical_score = some t ∧
    (gate_persist s (GateOutcome.terminated t)).hr_score = s.hr_score :=
  ⟨rfl, rfl, rfl, rfl, rfl, rfl⟩

/-- Claim C3, counterexample to the literal statement: the
Technical-cutoff terminal update marks the session completed but stores
no HR round score at all — the `hr_score` field remains `none`, not the
HR `roundScore` (which would be `some 0`). -/
theorem C3_counterexample :
    (gate_persist c3_session (GateOutcome.terminated 65)).status = "completed" ∧
    (gate_persist c3_session (GateOutcome.terminated 65)).hr_score = none ∧
    (gate_persist c3_session (GateOutcome.terminated 65)).hr_score ≠
      some (calculate_round_score
        (round_responses c3_session.questions c3_session.responses "HR")) := by
  refine ⟨rfl, rfl, ?_⟩
  intro h
  exact Option.noConfusion h

/-! ### Claim C4 — out-of-turn submissions -/

/-- Claim C4 (amended): `submit_candidate_answer` rejects a submission
(HTTP 404) exactly when its question identifier matches no question of
the session; a submission referencing any existing question — including
an already answered one — passes the lookup and is processed, so
out-of-turn submissions are not detected as conflicts. -/
theorem C4_submission_lookup (questions : List Question) (question_id : String) :
    find_question questions question_id = none ↔
      ∀ q ∈ questions, q.question_id ≠ question_id := by
  simp only [find_question, List.find?_eq_none, beq_iff_eq]

/-- Witness for C4: an identifier matching no question is rejected. -/
theorem C4_witness : find_question [sample_question "q1"] "zz" = none := by
  apply (C4_submission_lookup [sample_question "q1"] "zz").mpr
  intro q hq
  rw [List.mem_singleton] at hq
  subst hq
  decide

/-- Claim C4, counterexample to the literal statement: in a session
whose first question `q1` is already answered and whose current
unanswered question is `q2`, a submission referencing `q1` still passes
the lookup (it is `some q1`, not a rejection), even though `q1` is not
the current unanswered question. -/
theorem C4_counterexample :
    find_question [sample_question "q1", sample_question "q2"] "q1" =
      some (sample_question "q1") ∧
    ([sample_response "q1" 65].map Response.question_id).contains "q1" = true ∧
    [sample_question "q1",
      sample_question "q2"][([sample_response "q1" 65] : List Response).length]? =
      some (sample_question "q2") ∧
    (sample_question "q2").question_id ≠ "q1" := by
  refine ⟨by decide, by decide, by decide, by decide⟩

/-! ### Claim C5 — idempotent resume -/

/-- Claim C5 (confirmed): starting again with an existing in-progress
session that still has an unanswered question returns that question —
the one at index `len(responses)` — with `question_number =
len(responses) + 1`, and does not create a second session document. -/
theorem C5_idempotent_resume (s : CandidateSession)
    (hstatus : s.status = "in_progress")
    (hq : s.responses.length < s.questions.length) :
    start_candidate_interview (some s) =
      StartOutcome.resumed (s.questions.get ⟨s.responses.length, hq⟩)
        (s.responses.length + 1) ∧
    start_candidate_interview (some s) ≠ StartOutcome.created := by
  have hget : s.questions[s.responses.length]? =
      some (s.questions.get ⟨s.responses.length, hq⟩) := by
    rw [List.getElem?_eq_getElem hq]
    simp
  have hne : ¬ s.status = "completed" := by
    rw [hstatus]
    decide
  have hmain : start_candidate_interview (some s) =
      StartOutcome.resumed (s.questions.get ⟨s.responses.length, hq⟩)
        (s.responses.length + 1) := by
    rw [start_candidate_interview]
    rw [if_neg hne, if_pos hstatus, hget]
  refine ⟨hmain, ?_⟩
  rw [hmain]
  intro h
  exact StartOutcome.noConfusion h

/-- Witness for C5: resuming the sample session returns question `q2`
(index 1 = number of responses) as question number 2 and creates
nothing. -/
theorem C5_witness :
    start_candidate_interview (some c5_session) =
      StartOutcome.resumed (sample_question "q2") 2 ∧
    start_candidate_interview (some c5_session) ≠ StartOutcome.created := by
  have h := C5_idempotent_resume c5_session rfl (by decide)
  exact ⟨h.1, h.2⟩

/-! ### Claim C9 — the round score -/

/-- Claim C9 (amended): `calculate_round_score` returns `0` on the empty
list, returns the arithmetic mean of the overall scores **rounded to one
decimal** (not the exact mean) on a non-empty list, and is invariant
under permutation of the responses. -/
theorem C9_round_score (responses responses2 : List Response)
    (hperm : responses.Perm responses2) :
    calculate_round_score [] = 0 ∧
    (responses ≠ [] →
      calculate_round_score responses =
        pyRound1 ((responses.map response_overall).sum / (responses.length : ℚ))) ∧
    calculate_round_score responses = calculate_round_score responses2 := by
  refine ⟨rfl, ?_, ?_⟩
  · intro h
    rw [calculate_round_score, if_neg (by simpa using h)]
  · rw [calculate_round_score, calculate_round_score]
    have hlen := hperm.length_eq
    have hsum : (responses.map response_overall).sum =
        (responses2.map response_overall).sum :=
      (hperm.map response_overall).sum_eq
    by_cases h : responses.isEmpty
    · have h2 : responses2.isEmpty = true := by
        rw [List.isEmpty_iff] at h ⊢
        rw [h] at hperm
        exact (hperm.symm).eq_nil
      rw [if_pos h, if_pos h2]
    · have h2 : ¬ responses2.isEmpty = true := by
        rw [List.isEmpty_iff] at h ⊢
        intro hc
        apply h
        rw [hc] at hperm
        exact hperm.eq_nil
      rw [if_neg h, if_neg h2, hsum, hlen]

/-- Witness for C9: a two-response list and its swap have the same round
score, and the score is the rounded mean. -/
theorem C9_witness :
    calculate_round_score [sample_response "q1" 70, sample_response "q2" 80] =
      pyRound1
        (([sample_response "q1" 70, sample_response "q2" 80].map response_overall).sum /
          (([sample_response "q1" 70, sample_response "q2" 80] : List Response).length : ℚ)) ∧
    calculate_round_score [sample_response "q1" 70, sample_response "q2" 80] =
      calculate_round_score [sample_response "q2" 80, sample_response "q1" 70] := by
  have h := C9_round_score [sample_response "q1" 70, sample_response "q2" 80]
    [sample_response "q2" 80, sample_response "q1" 70] (by decide)
  exact ⟨h.2.1 (by decide), h.2.2⟩

/-- Claim C9, counterexample to the literal statement: for overall
scores 0, 0, 1 the exact mean is 1/3 but `calculate_round_score`
returns the rounded 3/10. -/
theorem C9_counterexample :
    calculate_round_score
        [sample_response "q1" 0, sample_response "q2" 0, sample_response "q3" 1] ≠
      (([sample_response "q1" 0, sample_response "q2" 0,
          sample_response "q3" 1].map response_overall).sum /
        (([sample_response "q1" 0, sample_response "q2" 0,
          sample_response "q3" 1] : List Response).length : ℚ)) := by
  have hsum : ([sample_response "q1" 0, sample_response "q2" 0,
      sample_response "q3" 1].map response_overall).sum = 1 := by
    simp [response_overall, sample_response, sample_evaluation]
  have hlen : ((([sample_response "q1" 0, sample_response "q2" 0,
      sample_response "q3" 1] : List Response).length : ℚ)) = 3 := by
    norm_num
  rw [calculate_round_score, if_neg (by decide), hsum, hlen,
    pyRound1_low (1 / 3) 3 (by norm_num) (by norm_num)]
  norm_num

/-! ### Claim C1 — the Technical → HR round gate -/

/-- Claim C1 (amended): for an in-progress session currently in the
Technical round, the gate fires exactly when at least 3 Technical
responses exist and the active elapsed minutes reach 0.6 of the
configured duration; when it fires, the score compared against the 70.0
cutoff and persisted is `calculate_round_score` — the mean of the
Technical responses' overall scores rounded half-even to one decimal,
not the exact mean; below the cutoff the session terminates (the
caller-visible reason is `technical_cutoff_not_met`, the session is
persisted completed with its rounded technical score), otherwise the
round becomes HR and the rounded technical score is persisted. -/
theorem C1_round_gate (s : CandidateSession) (all_responses : List Response)
    (duration elapsed : ℚ) (hround : s.current_round = "Technical") :
    (round_gate s.current_round s.questions all_responses duration elapsed ≠
        GateOutcome.noTransition ↔
      (3 ≤ (round_responses s.questions all_responses "Technical").length ∧
        duration * (3 / 5) ≤ elapsed)) ∧
    (3 ≤ (round_responses s.questions all_responses "Technical").length →
      duration * (3 / 5) ≤ elapsed →
      ((calculate_round_score (round_responses s.questions all_responses "Technical") < 70 →
        round_gate s.current_round s.questions all_responses duration elapsed =
          GateOutcome.terminated
            (calculate_round_score (round_responses s.questions all_responses "Technical")) ∧
        gate_surfaced_reason
            (round_gate s.current_round s.questions all_responses duration elapsed) =
          some "technical_cutoff_not_met" ∧
        (gate_persist s
            (round_gate s.current_round s.questions all_responses duration elapsed)).status =
          "completed" ∧
        (gate_persist s
            (round_gate s.current_round s.questions all_responses
              duration elapsed)).technical_score =
          some (calculate_round_score
            (round_responses s.questions all_responses "Technical"))) ∧
      (70 ≤ calculate_round_score (round_responses s.questions all_responses "Technical") →
        round_gate s.current_round s.questions all_responses duration elapsed =
          GateOutcome.proceedHR
            (calculate_round_score (round_responses s.questions all_responses "Technical")) ∧
        (gate_persist s
            (round_gate s.current_round s.questions all_responses
              duration elapsed)).current_round = "HR" ∧
        (gate_persist s
            (round_gate s.current_round s.questions all_responses
              duration elapsed)).technical_score =
          some (calculate_round_score
            (round_responses s.questions all_responses "Technical"))))) := by
  rw [hround, round_gate]
  split_ifs with h1 h2 h3
  · refine ⟨iff_of_true (fun h => GateOutcome.noConfusion h) ⟨h2.2, h2.1⟩, ?_⟩
    intro _ _
    constructor
    · intro _
      exact ⟨rfl, rfl, rfl, rfl⟩
    · intro hge
      exfalso
      rw [Bool.not_eq_true'] at h3
      rw [should_proceed_to_hr, decide_eq_false_iff_not, TECH_CUTOFF] at h3
      exact h3 hge
  · refine ⟨iff_of_true (fun h => GateOutcome.noConfusion h) ⟨h2.2, h2.1⟩, ?_⟩
    intro _ _
    constructor
    · intro hlt
      exfalso
      have hb : should_proceed_to_hr
          (calculate_round_score (round_responses s.questions all_responses "Technical"))
          TECH_CUTOFF = true := by
        cases hsp : should_proceed_to_hr
            (calculate_round_score (round_responses s.questions all_responses "Technical"))
            TECH_CUTOFF with
        | true => rfl
        | false => exact absurd (by rw [hsp]; rfl) h3
      rw [should_proceed_to_hr, decide_eq_true_eq, TECH_CUTOFF] at hb
      linarith
    · intro _
      exact ⟨rfl, rfl, rfl⟩
  · constructor
    · apply iff_of_false
      · intro h
        exact h rfl
      · intro hc
        exact h2 ⟨hc.2, hc.1⟩
    · intro h3' hel
      exact absurd ⟨hel, h3'⟩ h2
  · exact absurd rfl h1

/-- Witness for C1: with 3 Technical responses averaging 65 < 70,
duration 20 and elapsed 12 = 0.6·20, the gate terminates the session
with the surfaced reason `technical_cutoff_not_met`, persisting status
`completed` and technical score 65. -/
theorem C1_witness :
    round_gate c1_session.current_round c1_session.questions c1_responses 20 12 =
      GateOutcome.terminated 65 ∧
    gate_surfaced_reason
        (round_gate c1_session.current_round c1_session.questions c1_responses 20 12) =
      some "technical_cutoff_not_met" ∧
    (gate_persist c1_session
        (round_gate c1_session.current_round c1_session.questions c1_responses 20 12)).status =
      "completed" ∧
    (gate_persist c1_session
        (round_gate c1_session.current_round c1_session.questions
          c1_responses 20 12)).technical_score = some 65 := by
  have htr : round_responses c1_session.questions c1_responses "Technical" = c1_responses := by
    decide
  have hscore :
      calculate_round_score (round_responses c1_session.questions c1_responses "Technical") =
        65 := by
    rw [htr, calculate_round_score, if_neg (by decide)]
    have hsum : (c1_responses.map response_overall).sum = 195 := by
      norm_num [c1_responses, response_overall, sample_response, sample_evaluation]
    have hlen : ((c1_responses.length : ℚ)) = 3 := by
      norm_num [c1_responses]
    rw [hsum, hlen, show (195 : ℚ) / 3 = 65 by norm_num,
      pyRound1_low 65 650 (by norm_num) (by norm_num)]
    norm_num
  have h := C1_round_gate c1_session c1_responses 20 12 rfl
  have hmain := (h.2 (by rw [htr]; decide) (by norm_num)).1 (by rw [hscore]; norm_num)
  rw [hscore] at hmain
  exact hmain

/-- Claim C1, counterexample to the literal statement: with three
Technical responses of overall scores 69.9, 69.9, 70.1 and the gate
condition met (3 responses, duration 20, elapsed 12 = 0.6·20), the exact
mean of the overall scores is 2099/30 < 70, so the claim demands
termination with `technical_cutoff_not_met`; the code instead compares
the rounded round score 70.0 against the cutoff, proceeds to HR (no
terminal reason is surfaced), and persists 70 as the technical score. -/
theorem C1_counterexample :
    (c1_counter_responses.map response_overall).sum /
        ((c1_counter_responses.length : ℚ)) < 70 ∧
    3 ≤ (round_responses c1_session.questions c1_counter_responses "Technical").length ∧
    (20 : ℚ) * (3 / 5) ≤ 12 ∧
    round_gate c1_session.current_round c1_session.questions c1_counter_responses 20 12 =
      GateOutcome.proceedHR 70 ∧
    gate_surfaced_reason
        (round_gate c1_session.current_round c1_session.questions
          c1_counter_responses 20 12) = none ∧
    (gate_persist c1_session
        (round_gate c1_session.current_round c1_session.questions
          c1_counter_responses 20 12)).current_round = "HR" ∧
    (gate_persist c1_session
        (round_gate c1_session.current_round c1_session.questions
          c1_counter_responses 20 12)).technical_score = some 70 := by
  have htr : round_responses c1_session.questions c1_counter_responses "Technical" =
      c1_counter_responses := rfl
  have hsum : (c1_counter_responses.map response_overall).sum = 2099 / 10 := by
    norm_num [c1_counter_responses, response_overall, sample_response, sample_evaluation]
  have hlen : ((c1_counter_responses.length : ℚ)) = 3 := by
    norm_num [c1_counter_responses]
  have hscore : calculate_round_score
      (round_responses c1_session.questions c1_counter_responses "Technical") = 70 := by
    rw [htr, calculate_round_score, if_neg (by decide), hsum, hlen,
      show (2099 / 10 : ℚ) / 3 = 2099 / 30 by norm_num,
      pyRound1_high (2099 / 30) 699 (by norm_num) (by norm_num) (by norm_num)]
    norm_num
  have hcr : c1_session.current_round = "Technical" := rfl
  have hgate : round_gate c1_session.current_round c1_session.questions
      c1_counter_responses 20 12 = GateOutcome.proceedHR 70 := by
    rw [round_gate, if_pos hcr, if_pos ⟨by norm_num, by rw [htr]; decide⟩, hscore,
      if_neg (by decide)]
  refine ⟨?_, ?_, by norm_num, hgate, ?_, ?_, ?_⟩
  · rw [hsum, hlen]
    norm_num
  · rw [htr]
    decide
  · rw [hgate]
    rfl
  · rw [hgate]
    rfl
  · rw [hgate]
    rfl

/-! ### Helper lemmas on the fallback selection loop -/

lemma first_not_excluded_eq_none_iff (pool prev : List String) :
    first_not_excluded pool prev = none ↔ ∀ fq ∈ pool, fq ∈ prev := by
  induction pool with
  | nil => simp [first_not_excluded]
  | cons a rest ih =>
    rw [first_not_excluded]
    by_cases h : a ∈ prev
    · rw [if_pos h, ih]
      constructor
      · intro hall fq hfq
        rcases List.mem_cons.mp hfq with rfl | hm
        · exact h
        · exact hall fq hm
      · intro hall fq hfq
        exact hall fq (List.mem_cons_of_mem a hfq)
    · rw [if_neg h]
      constructor
      · intro hc
        exact Option.noConfusion hc
      · intro hall
        exact absurd (hall a (List.mem_cons_self a rest)) h

lemma first_not_excluded_some (pool prev : List String) (q : String)
    (h : first_not_excluded pool prev = some q) : q ∈ pool ∧ q ∉ prev := by
  induction pool with
  | nil => exact Option.noConfusion h
  | cons a rest ih =>
    rw [first_not_excluded] at h
    by_cases ha : a ∈ prev
    · rw [if_pos ha] at h
      rcases ih h with ⟨h1, h2⟩
      exact ⟨List.mem_cons_of_mem a h1, h2⟩
    · rw [if_neg ha] at h
      injection h with h
      subst h
      exact ⟨List.mem_cons_self a rest, ha⟩

lemma first_not_excluded_index (pool prev : List String) (i : ℕ) (hi : i < pool.length)
    (hbefore : ∀ j (hj : j < pool.length), j < i → pool.get ⟨j, hj⟩ ∈ prev)
    (hnot : pool.get ⟨i, hi⟩ ∉ prev) :
    first_not_excluded pool prev = some (pool.get ⟨i, hi⟩) := by
  induction pool generalizing i with
  | nil => exact absurd hi (Nat.not_lt_zero i)
  | cons a rest ih =>
    cases i with
    | zero =>
      have hnot' : a ∉ prev := hnot
      rw [first_not_excluded, if_neg hnot']
      rfl
    | succ i' =>
      have ha : a ∈ prev :=
        hbefore 0 (Nat.succ_pos rest.length) (Nat.succ_pos i')
      rw [first_not_excluded, if_pos ha]
      exact ih i' (Nat.lt_of_succ_lt_succ hi)
        (fun j hj hlt => hbefore (j + 1) (Nat.succ_lt_succ hj) (Nat.succ_lt_succ hlt))
        hnot

/-! ### Claim C8 — deterministic fallback selection -/

/-- Claim C8 (confirmed): when the generator output is malformed or
empty, `generate_question` returns, deterministically, the first entry
of the static per-round pool that is not in the exclusion list, and the
pool's first entry when every pool entry is excluded. -/
theorem C8_fallback_selection (round_type job_role difficulty : String)
    (previous_questions : List String) :
    ((∀ fq ∈ fallback_pool round_type job_role, fq ∈ previous_questions) →
      (generate_question none round_type job_role difficulty previous_questions).question =
        (fallback_pool round_type job_role).headD "") ∧
    (∀ i (hi : i < (fallback_pool round_type job_role).length),
      (∀ j (hj : j < (fallback_pool round_type job_role).length), j < i →
        (fallback_pool round_type job_role).get ⟨j, hj⟩ ∈ previous_questions) →
      (fallback_pool round_type job_role).get ⟨i, hi⟩ ∉ previous_questions →
      (generate_question none round_type job_role difficulty previous_questions).question =
        (fallback_pool round_type job_role).get ⟨i, hi⟩) := by
  constructor
  · intro hall
    show choose_fallback (fallback_pool round_type job_role) previous_questions = _
    rw [choose_fallback, (first_not_excluded_eq_none_iff _ _).mpr hall]
    rfl
  · intro i hi hbefore hnot
    show choose_fallback (fallback_pool round_type job_role) previous_questions = _
    rw [choose_fallback, first_not_excluded_index _ _ i hi hbefore hnot]
    rfl

/-- Witness for C8: with an empty exclusion list the fallback question
for the HR round is the first HR pool entry. -/
theorem C8_witness :
    (generate_question none "HR" "Engineer" "medium" []).question =
      "Tell me about a time when you had to handle a conflict with a team member." := by
  exact (C8_fallback_selection "HR" "Engineer" "medium" []).2 0 (by decide)
    (fun j hj hlt => absurd hlt (Nat.not_lt_zero j)) (by decide)

/-! ### Claim C7 — diversity of the selected question -/

/-- Claim C7 (amended): on the fallback path the selected question text
avoids the exclusion list whenever some pool entry is outside it; but
when the generator output parses, its question text is returned with no
equality check against the exclusion list at all, and when every pool
entry is excluded the fallback returns the (excluded) first pool
entry. -/
theorem C7_fallback_diversity (round_type job_role difficulty : String)
    (previous_questions : List String) (p : ParsedGen)
    (h : ∃ fq ∈ fallback_pool round_type job_role, fq ∉ previous_questions) :
    (generate_question none round_type job_role difficulty previous_questions).question ∉
      previous_questions ∧
    (generate_question (some p) round_type job_role difficulty previous_questions).question =
      p.question := by
  constructor
  · show choose_fallback (fallback_pool round_type job_role) previous_questions ∉ _
    rw [choose_fallback]
    cases hfne : first_not_excluded (fallback_pool round_type job_role) previous_questions with
    | none =>
      exfalso
      rcases h with ⟨fq, hmem, hnot⟩
      exact hnot ((first_not_excluded_eq_none_iff _ _).mp hfne fq hmem)
    | some q =>
      exact (first_not_excluded_some _ _ q hfne).2
  · rfl

/-- Witness for C7: with exclusion list `["taken"]` the fallback
question avoids the list, and a parsed generator reply is passed through
verbatim. -/
theorem C7_witness :
    (generate_question none "HR" "Engineer" "medium" ["taken"]).question ∉
      (["taken"] : List String) ∧
    (generate_question (some c7_parsed) "HR" "Engineer" "medium" ["taken"]).question =
      c7_parsed.question :=
  C7_fallback_diversity "HR" "Engineer" "medium" ["taken"] c7_parsed
    ⟨"Tell me about a time when you had to handle a conflict with a team member.",
      by decide, by decide⟩

/-- Claim C7, counterexample to the literal statement: when every HR
pool entry is already in the exclusion list and the generator output is
malformed, the selected question's text equals an entry of the exclusion
list passed in the same call. -/
theorem C7_counterexample :
    (generate_question none "HR" "Engineer" "medium" hr_fallback_questions).question ∈
      hr_fallback_questions := by
  decide

/-! ### Claim C10 — instant evaluation of an empty answer -/

/-- Claim C10 (amended): for every question, ideal answer, keyword list
and similarity backend, the instant evaluation of an empty
(whitespace-only) answer yields all component scores 0, overall score 0,
answer strength `weak`, and the feedback text `"No answer provided."`
(capitalised and with a trailing period, not the spec's lower-case
`"no answer provided"`). -/
theorem C10_empty_answer (similarity : String → String → ℚ)
    (question ideal_answer candidate_answer : String) (keywords : List String)
    (h : (pyStrip candidate_answer).data.isEmpty = true) :
    (evaluate_answer_instant similarity question ideal_answer candidate_answer
        keywords).content_score = 0 ∧
    (evaluate_answer_instant similarity question ideal_answer candidate_answer
        keywords).keyword_score = 0 ∧
    (evaluate_answer_instant similarity question ideal_answer candidate_answer
        keywords).depth_score = 0 ∧
    (evaluate_answer_instant similarity question ideal_answer candidate_answer
        keywords).communication_score = 0 ∧
    (evaluate_answer_instant similarity question ideal_answer candidate_answer
        keywords).confidence_score = 0 ∧
    (evaluate_answer_instant similarity question ideal_answer candidate_answer
        keywords).overall_score = 0 ∧
    (evaluate_answer_instant similarity question ideal_answer candidate_answer
        keywords).answer_strength = "weak" ∧
    (evaluate_answer_instant similarity question ideal_answer candidate_answer
        keywords).feedback = "No answer provided." := by
  have heq : evaluate_answer_instant similarity question ideal_answer candidate_answer
      keywords = empty_answer_evaluation keywords := by
    rw [evaluate_answer_instant, if_pos h]
  rw [heq]
  exact ⟨rfl, rfl, rfl, rfl, rfl, rfl, rfl, rfl⟩

/-- Witness for C10: the answer `"   "` is whitespace-only and its
instant evaluation has overall score 0, strength `weak`, feedback
`"No answer provided."`. -/
theorem C10_witness :
    (pyStrip "   ").data.isEmpty = true ∧
    (evaluate_answer_instant (fun _ _ => 0) "Q" "ideal" "   " ["k"]).overall_score = 0 ∧
    (evaluate_answer_instant (fun _ _ => 0) "Q" "ideal" "   " ["k"]).answer_strength =
      "weak" ∧
    (evaluate_answer_instant (fun _ _ => 0) "Q" "ideal" "   " ["k"]).feedback =
      "No answer provided." := by
  have h := C10_empty_answer (fun _ _ => 0) "Q" "ideal" "   " ["k"] (by decide)
  exact ⟨by decide, h.2.2.2.2.2.1, h.2.2.2.2.2.2.1, h.2.2.2.2.2.2.2⟩

/-- Claim C10, counterexample to the literal statement: the feedback
returned for an empty answer is `"No answer provided."`, not the claimed
`"no answer provided"`. -/
theorem C10_counterexample :
    (evaluate_answer_instant (fun _ _ => 0) "Q" "ideal" "   " ["k"]).feedback ≠
      "no answer provided" := by
  have heq : evaluate_answer_instant (fun _ _ => 0) "Q" "ideal" "   " ["k"] =
      empty_answer_evaluation ["k"] := by
    rw [evaluate_answer_instant, if_pos (by decide)]
  rw [heq]
  decide
